import Mathlib

/-!
Shallow embedding of the bidirectional sync core of vex-tm-obs-sync:
`src/vex_tm_obs_sync/config.py` (dataclasses and `validate_config`) and
`src/vex_tm_obs_sync/sync.py` (class `OBSTMSync`: the two event handlers
`_on_obs_scene_changed` and `_on_tm_overview_updated`, and the
initial-sync pass of `run`).

External collaborators (the OBS websocket client and the vex_tm_bridge
fieldset) are modelled as oracles passed to each handler invocation:
the result of `fieldset.get_match_state()`, the success of
`fieldset.set_audience_display(...)`, the success of
`obs_client.set_current_program_scene(...)`, and the fresh
`fieldset.get_overview()` fetch used by the initial sync.  Commands the
engine issues to either endpoint are collected into a list; a failed
command is still recorded as issued (the call was made), but the
state-tracker update that follows it in the source is skipped, exactly
as the `try/except` blocks in the source do.
-/

namespace VexTmObsSync

/-- Match run state of the fieldset, `vex_tm_bridge.base.FieldsetState`.
The sync code only distinguishes `Disabled` from everything else;
the remaining members are the running/paused states. -/
inductive FieldsetState
  | Disabled
  | Running
  | Paused
  deriving DecidableEq

/-- `.name` of the external enum member `FieldsetAudienceDisplay.Intro`. -/
def introName : String := "Intro"

/-- `.name` of the external enum member `FieldsetAudienceDisplay.InMatch`. -/
def inMatchName : String := "InMatch"

/-- A command issued by the engine to one of the two endpoints. -/
inductive Cmd
  | setAudienceDisplay (display : String)
  | setCurrentProgramScene (scene : String)
  deriving DecidableEq

/-- Outcome of the external call pair `FieldsetAudienceDisplay.by_name(name)`
followed by `fieldset.set_audience_display(...)` in the direct-mapping
branches: `nameError` means `by_name` raised (so no set call was ever made),
`cmdError` means the set call itself raised, `ok` means both succeeded.
Either exception is caught by the same `except` clause in the source. -/
inductive ExtResult
  | ok
  | nameError
  | cmdError
  deriving DecidableEq

/-- `config.OBSConfig`. -/
structure OBSConfig where
  host : String
  port : Int
  password : Option String
  deriving DecidableEq

/-- `config.VEXTMConfig`.  The `competition` field (an enum of the external
vex_tm_bridge library) is never read by the validation or sync logic
embedded here and is omitted. -/
structure VEXTMConfig where
  host : String
  fieldset_title : String
  deriving DecidableEq

/-- `config.FieldSceneMapping`. -/
structure FieldSceneMapping where
  obs_scene : String
  deriving DecidableEq

/-- `config.OtherSceneMapping`. -/
structure OtherSceneMapping where
  obs_scene : String
  tm_display : String
  deriving DecidableEq

/-- `config.Config`. -/
structure Config where
  obs : OBSConfig
  vex_tm : VEXTMConfig
  field_scene_mappings : List FieldSceneMapping
  other_scene_mappings : List OtherSceneMapping
  sync_tm_to_obs : Bool := true
  sync_obs_to_tm : Bool := true
  deriving DecidableEq

/-- `self.field_scenes = [mapping.obs_scene for mapping in config.field_scene_mappings]`. -/
def field_scenes (config : Config) : List String :=
  config.field_scene_mappings.map (fun m => m.obs_scene)

/-- Lookup in a Python dict built by a comprehension over `pairs`:
later pairs overwrite earlier ones with the same key. -/
def dictOfPairs (pairs : List (String × String)) (key : String) : Option String :=
  (pairs.reverse.find? (fun p => p.1 == key)).map (fun p => p.2)

/-- `self.obs_to_tm = {mapping.obs_scene: mapping.tm_display for mapping in config.other_scene_mappings}`. -/
def obs_to_tm (config : Config) : String → Option String :=
  dictOfPairs (config.other_scene_mappings.map (fun m => (m.obs_scene, m.tm_display)))

/-- `self.tm_to_obs = {mapping.tm_display: mapping.obs_scene for mapping in config.other_scene_mappings}`. -/
def tm_to_obs (config : Config) : String → Option String :=
  dictOfPairs (config.other_scene_mappings.map (fun m => (m.tm_display, m.obs_scene)))

/-- The mutable last-known state owned by `OBSTMSync`:
`self.last_obs_scene` and `self.last_tm_display`. -/
structure SyncState where
  last_obs_scene : Option String
  last_tm_display : Option String
  deriving DecidableEq

/-- The overview payload delivered to `_on_tm_overview_updated`:
`overview.audience_display.name` and `overview.current_field_id`. -/
structure Overview where
  audience_display_name : String
  current_field_id : Option Int
  deriving DecidableEq

/-- `OBSTMSync._on_obs_scene_changed` (sync.py lines 102-163).

`scene_name?` is the scene name extracted from the event (`none` when the
event carries no `scene_name` attribute); Python's `if not scene_name`
also rejects the empty string.  `matchState` is the result of the fresh
`self.fieldset.get_match_state()` call (`Except.error` when it raises),
`fieldSetOk` the success of `set_audience_display` in the field-scene
branch (`by_name` is total there: the names are the literal member names
`Intro`/`InMatch`), and `directSet` the outcome of `by_name` + set in the
direct-mapping branch. -/
def onObsSceneChanged (config : Config) (st : SyncState)
    (scene_name? : Option String)
    (matchState : Except Unit FieldsetState)
    (fieldSetOk : Bool)
    (directSet : ExtResult) :
    SyncState × List Cmd :=
  if config.sync_obs_to_tm = false then (st, [])
  else
    match scene_name? with
    | none => (st, [])
    | some scene_name =>
      if scene_name = "" then (st, [])
      else if st.last_obs_scene = some scene_name then (st, [])
      else
        let st1 : SyncState := { st with last_obs_scene := some scene_name }
        if scene_name ∈ field_scenes config then
          match matchState with
          | Except.error _ => (st1, [])
          | Except.ok ms =>
            let tm_display_name :=
              if ms = FieldsetState.Disabled then introName else inMatchName
            if fieldSetOk then
              ({ st1 with last_tm_display := some tm_display_name },
                [Cmd.setAudienceDisplay tm_display_name])
            else (st1, [Cmd.setAudienceDisplay tm_display_name])
        else
          match obs_to_tm config scene_name with
          | some tm_display_name =>
            match directSet with
            | ExtResult.nameError => (st1, [])
            | ExtResult.cmdError => (st1, [Cmd.setAudienceDisplay tm_display_name])
            | ExtResult.ok =>
              ({ st1 with last_tm_display := some tm_display_name },
                [Cmd.setAudienceDisplay tm_display_name])
          | none => (st1, [])

/-- `OBSTMSync._on_tm_overview_updated` (sync.py lines 165-213).
`setSceneOk` is the success of `obs_client.set_current_program_scene`. -/
def onTmOverviewUpdated (config : Config) (st : SyncState)
    (overview : Overview) (setSceneOk : Bool) :
    SyncState × List Cmd :=
  if config.sync_tm_to_obs = false then (st, [])
  else
    let audience_display_name := overview.audience_display_name
    if st.last_tm_display = some audience_display_name then (st, [])
    else
      let st1 : SyncState := { st with last_tm_display := some audience_display_name }
      if audience_display_name ∈ [introName, inMatchName] then
        match overview.current_field_id with
        | some current_field_id =>
          if 0 ≤ current_field_id ∧ current_field_id < ((field_scenes config).length : Int) then
            let obs_scene := (field_scenes config).getD current_field_id.toNat ""
            if setSceneOk then
              ({ st1 with last_obs_scene := some obs_scene },
                [Cmd.setCurrentProgramScene obs_scene])
            else (st1, [Cmd.setCurrentProgramScene obs_scene])
          else (st1, [])
        | none => (st1, [])
      else
        match tm_to_obs config audience_display_name with
        | some obs_scene =>
          if setSceneOk then
            ({ st1 with last_obs_scene := some obs_scene },
              [Cmd.setCurrentProgramScene obs_scene])
          else (st1, [Cmd.setCurrentProgramScene obs_scene])
        | none => (st1, [])

/-- Python truthiness of an `Optional[str]`: `None` and `""` are falsy. -/
def optTruthy : Option String → Bool
  | none => false
  | some s => !(s == "")

/-- The OBS→TM half of the initial sync (run, sync.py lines 252-275),
entered when `self.config.sync_obs_to_tm and self.last_obs_scene`. -/
def initialSyncObsToTm (config : Config) (st : SyncState)
    (matchState : Except Unit FieldsetState)
    (fieldSetOk : Bool)
    (directSet : ExtResult) :
    SyncState × List Cmd :=
  match st.last_obs_scene with
  | none => (st, [])
  | some last_obs_scene =>
    if last_obs_scene ∈ field_scenes config then
      match matchState with
      | Except.error _ => (st, [])
      | Except.ok ms =>
        let target_display :=
          if ms = FieldsetState.Disabled then introName else inMatchName
        if some target_display ≠ st.last_tm_display then
          if fieldSetOk then
            ({ st with last_tm_display := some target_display },
              [Cmd.setAudienceDisplay target_display])
          else (st, [Cmd.setAudienceDisplay target_display])
        else (st, [])
    else
      match obs_to_tm config last_obs_scene with
      | some tm_display_name =>
        if some tm_display_name ≠ st.last_tm_display then
          match directSet with
          | ExtResult.nameError => (st, [])
          | ExtResult.cmdError => (st, [Cmd.setAudienceDisplay tm_display_name])
          | ExtResult.ok =>
            ({ st with last_tm_display := some tm_display_name },
              [Cmd.setAudienceDisplay tm_display_name])
        else (st, [])
      | none => (st, [])

/-- The TM→OBS half of the initial sync (run, sync.py lines 277-300),
entered when the OBS→TM half was not.  `overviewFetch` is the fresh
`self.fieldset.get_overview()` call, reduced to its `current_field_id`
field (`Except.error` when the fetch raises). -/
def initialSyncTmToObs (config : Config) (st : SyncState)
    (overviewFetch : Except Unit (Option Int))
    (setSceneOk : Bool) :
    SyncState × List Cmd :=
  match st.last_tm_display with
  | none => (st, [])
  | some last_tm_display =>
    if last_tm_display ∈ [introName, inMatchName] then
      match overviewFetch with
      | Except.error _ => (st, [])
      | Except.ok current_field_id? =>
        match current_field_id? with
        | some current_field_id =>
          if 0 ≤ current_field_id ∧ current_field_id < ((field_scenes config).length : Int) then
            let obs_scene := (field_scenes config).getD current_field_id.toNat ""
            if some obs_scene ≠ st.last_obs_scene then
              if setSceneOk then
                ({ st with last_obs_scene := some obs_scene },
                  [Cmd.setCurrentProgramScene obs_scene])
              else (st, [Cmd.setCurrentProgramScene obs_scene])
            else (st, [])
          else (st, [])
        | none => (st, [])
    else
      match tm_to_obs config last_tm_display with
      | some obs_scene =>
        if some obs_scene ≠ st.last_obs_scene then
          if setSceneOk then
            ({ st with last_obs_scene := some obs_scene },
              [Cmd.setCurrentProgramScene obs_scene])
          else (st, [Cmd.setCurrentProgramScene obs_scene])
        else (st, [])
      | none => (st, [])

/-- The initial-sync pass of `OBSTMSync.run` (sync.py lines 251-300):
an `if`/`elif` chain, so at most one direction runs, and the OBS→TM
direction takes priority when both are enabled and a current OBS scene
was captured. -/
def initialSync (config : Config) (st : SyncState)
    (matchState : Except Unit FieldsetState)
    (fieldSetOk : Bool)
    (directSet : ExtResult)
    (overviewFetch : Except Unit (Option Int))
    (setSceneOk : Bool) :
    SyncState × List Cmd :=
  if config.sync_obs_to_tm && optTruthy st.last_obs_scene then
    initialSyncObsToTm config st matchState fieldSetOk directSet
  else if config.sync_tm_to_obs && optTruthy st.last_tm_display then
    initialSyncTmToObs config st overviewFetch setSceneOk
  else (st, [])

/-- Python `str.strip()` with no argument: removes leading and trailing
whitespace.  Implemented over the character list so that it evaluates by
kernel reduction on concrete strings. -/
def pyStrip (s : String) : String :=
  ⟨((s.data.dropWhile Char.isWhitespace).reverse.dropWhile Char.isWhitespace).reverse⟩

/-- The per-element loop of `validate_config` over `field_scene_mappings`
(config.py lines 166-176): empty-after-strip check, then duplicate check
against the scenes seen so far; returns the accumulated scene set. -/
def checkFieldSceneMappings : List String → List FieldSceneMapping → Except String (List String)
  | seen, [] => Except.ok seen
  | seen, m :: rest =>
    if pyStrip m.obs_scene = "" then
      Except.error "Field OBS scene name cannot be empty"
    else if m.obs_scene ∈ seen then
      Except.error ("Duplicate field OBS scene in mappings: " ++ m.obs_scene)
    else checkFieldSceneMappings (m.obs_scene :: seen) rest

/-- The per-element loop of `validate_config` over `other_scene_mappings`
(config.py lines 178-198): strip-empty checks for both names, then
duplicate checks; returns the accumulated scene and display sets. -/
def checkOtherSceneMappings :
    List String → List String → List OtherSceneMapping → Except String (List String × List String)
  | seenScenes, seenDisplays, [] => Except.ok (seenScenes, seenDisplays)
  | seenScenes, seenDisplays, m :: rest =>
    if pyStrip m.obs_scene = "" then
      Except.error "Other OBS scene name cannot be empty"
    else if pyStrip m.tm_display = "" then
      Except.error "TM display name cannot be empty"
    else if m.obs_scene ∈ seenScenes then
      Except.error ("Duplicate other OBS scene in mappings: " ++ m.obs_scene)
    else if m.tm_display ∈ seenDisplays then
      Except.error ("Duplicate TM display in mappings: " ++ m.tm_display)
    else checkOtherSceneMappings (m.obs_scene :: seenScenes) (m.tm_display :: seenDisplays) rest

/-- `config.validate_config` (config.py lines 141-221).  `valid_displays`
is the name set of the external enum `FieldsetAudienceDisplay`, passed as
a parameter since that vocabulary lives in the external library. -/
def validate_config (valid_displays : List String) (config : Config) : Except String Unit :=
  if config.field_scene_mappings = [] ∧ config.other_scene_mappings = [] then
    Except.error "At least one scene mapping (field or other) must be configured"
  else if config.obs.host = "" then
    Except.error "OBS host must be specified"
  else if ¬(1 ≤ config.obs.port ∧ config.obs.port ≤ 65535) then
    Except.error "OBS port must be between 1 and 65535"
  else if config.vex_tm.host = "" then
    Except.error "VEX TM host must be specified"
  else if config.vex_tm.fieldset_title = "" then
    Except.error "VEX TM fieldset title must be specified"
  else
    match checkFieldSceneMappings [] config.field_scene_mappings with
    | Except.error e => Except.error e
    | Except.ok field_obs_scenes =>
      match checkOtherSceneMappings [] [] config.other_scene_mappings with
      | Except.error e => Except.error e
      | Except.ok (other_obs_scenes, _tm_displays) =>
        if field_obs_scenes.any (fun s => other_obs_scenes.contains s) then
          Except.error "OBS scenes cannot be in both field and other mappings"
        else if config.other_scene_mappings.any (fun m => !(valid_displays.contains m.tm_display)) then
          Except.error "Invalid TM display"
        else if config.sync_tm_to_obs = false ∧ config.sync_obs_to_tm = false then
          Except.error "At least one sync direction must be enabled"
        else Except.ok ()

/-! ## Shared shape lemmas about the handlers -/

/-- Loop-break of the OBS handler: an event repeating the last known
scene leaves the state untouched and issues nothing. -/
theorem obsHandler_loopBreak (config : Config) (st : SyncState) (x : String)
    (ms : Except Unit FieldsetState) (f : Bool) (dr : ExtResult)
    (h : st.last_obs_scene = some x) :
    onObsSceneChanged config st (some x) ms f dr = (st, []) := by
  unfold onObsSceneChanged
  by_cases hs : config.sync_obs_to_tm = false <;> by_cases hx : x = "" <;> simp [hs, hx, h]

/-- Behaviour of the OBS handler on a fresh scene that resolves through
the direct mapping, for each outcome of the external set call. -/
theorem obsHandler_direct (config : Config) (st : SyncState) (x tgt : String)
    (ms : Except Unit FieldsetState) (f : Bool) (dr : ExtResult)
    (hsync : config.sync_obs_to_tm = true)
    (hx : x ≠ "") (hnew : st.last_obs_scene ≠ some x)
    (hfield : x ∉ field_scenes config) (hmap : obs_to_tm config x = some tgt) :
    onObsSceneChanged config st (some x) ms f dr =
      match dr with
      | ExtResult.nameError => ({ st with last_obs_scene := some x }, [])
      | ExtResult.cmdError =>
          ({ st with last_obs_scene := some x }, [Cmd.setAudienceDisplay tgt])
      | ExtResult.ok =>
          ({ st with last_obs_scene := some x, last_tm_display := some tgt },
            [Cmd.setAudienceDisplay tgt]) := by
  unfold onObsSceneChanged
  cases dr <;> simp [hsync, hx, hnew, hfield, hmap]

/-- Behaviour of the OBS handler on a fresh positional (field) scene when
the match-state fetch succeeds. -/
theorem obsHandler_field (config : Config) (st : SyncState) (x : String)
    (ms : FieldsetState) (f : Bool) (dr : ExtResult)
    (hsync : config.sync_obs_to_tm = true)
    (hx : x ≠ "") (hnew : st.last_obs_scene ≠ some x)
    (hfield : x ∈ field_scenes config) :
    onObsSceneChanged config st (some x) (Except.ok ms) f dr =
      (if f then
        ({ st with
            last_obs_scene := some x,
            last_tm_display := some (if ms = FieldsetState.Disabled then introName else inMatchName) },
          [Cmd.setAudienceDisplay (if ms = FieldsetState.Disabled then introName else inMatchName)])
      else
        ({ st with last_obs_scene := some x },
          [Cmd.setAudienceDisplay (if ms = FieldsetState.Disabled then introName else inMatchName)])) := by
  unfold onObsSceneChanged
  cases f <;> simp [hsync, hx, hnew, hfield]

/-- Loop-break of the TM handler: an overview repeating the last known
display leaves the state untouched and issues nothing. -/
theorem tmHandler_loopBreak (config : Config) (st : SyncState)
    (overview : Overview) (sOk : Bool)
    (h : st.last_tm_display = some overview.audience_display_name) :
    onTmOverviewUpdated config st overview sOk = (st, []) := by
  unfold onTmOverviewUpdated
  by_cases hs : config.sync_tm_to_obs = false <;> simp [hs, h]

/-! ## Concrete data for witnesses -/

/-- A small concrete configuration: two positional (field) scenes and one
directly mapped scene. -/
def demoConfig : Config :=
  { obs := { host := "localhost", port := 4455, password := none },
    vex_tm := { host := "localhost", fieldset_title := "Match Field Set #1" },
    field_scene_mappings := [{ obs_scene := "Field 1" }, { obs_scene := "Field 2" }],
    other_scene_mappings := [{ obs_scene := "Scene Logo", tm_display := "Logo" }],
    sync_tm_to_obs := true,
    sync_obs_to_tm := true }

/-- A concrete engine state: OBS is on a field scene, TM shows a display
different from every mapping target used in the witnesses. -/
def demoState : SyncState :=
  { last_obs_scene := some "Field 1", last_tm_display := some "Blank" }

/-! ## Claim theorems -/

/-- C1: Loop suppression.  For a scene `s` with direct mapping to display
`d`, when `s` differs from the last known scene, `onSideAChanged(s)`
issues exactly one `setDisplayState(d)` command and records
`lastKnownDisplayStateId = d`; the echo event `onSideBChanged(d)` then
issues zero `setCurrentScene` commands (and changes nothing). -/
theorem C1_loop_suppression (config : Config) (st : SyncState) (s d : String)
    (ms : Except Unit FieldsetState) (f : Bool) (fid : Option Int) (sOk : Bool)
    (hsync : config.sync_obs_to_tm = true)
    (hs : s ≠ "") (hnew : st.last_obs_scene ≠ some s)
    (hfield : s ∉ field_scenes config) (hmap : obs_to_tm config s = some d) :
    (onObsSceneChanged config st (some s) ms f ExtResult.ok).2 = [Cmd.setAudienceDisplay d] ∧
    (onObsSceneChanged config st (some s) ms f ExtResult.ok).1.last_tm_display = some d ∧
    onTmOverviewUpdated config (onObsSceneChanged config st (some s) ms f ExtResult.ok).1
        { audience_display_name := d, current_field_id := fid } sOk =
      ((onObsSceneChanged config st (some s) ms f ExtResult.ok).1, []) := by
  have h1 := obsHandler_direct config st s d ms f ExtResult.ok hsync hs hnew hfield hmap
  rw [h1]
  exact ⟨rfl, rfl, tmHandler_loopBreak config _ _ sOk rfl⟩

/-- Witness for C1 at a concrete input. -/
theorem C1_loop_suppression_witness :
    (onObsSceneChanged demoConfig demoState (some "Scene Logo")
        (Except.ok FieldsetState.Disabled) true ExtResult.ok).2 = [Cmd.setAudienceDisplay "Logo"] ∧
    (onObsSceneChanged demoConfig demoState (some "Scene Logo")
        (Except.ok FieldsetState.Disabled) true ExtResult.ok).1.last_tm_display = some "Logo" ∧
    onTmOverviewUpdated demoConfig
        (onObsSceneChanged demoConfig demoState (some "Scene Logo")
          (Except.ok FieldsetState.Disabled) true ExtResult.ok).1
        { audience_display_name := "Logo", current_field_id := some 0 } true =
      ((onObsSceneChanged demoConfig demoState (some "Scene Logo")
          (Except.ok FieldsetState.Disabled) true ExtResult.ok).1, []) :=
  C1_loop_suppression demoConfig demoState "Scene Logo" "Logo"
    (Except.ok FieldsetState.Disabled) true (some 0) true
    rfl (by decide) (by decide) (by decide) (by decide)

/-- C2: Idempotence.  If the last known scene already equals `x`,
`onSideAChanged(x)` is a no-op (no command, no state change); hence two
identical events in a row produce exactly one command issuance to side B
(for a mapped scene whose external call is actually attempted). -/
theorem C2_idempotent_events :
    (∀ (config : Config) (st : SyncState) (x : String)
        (ms : Except Unit FieldsetState) (f : Bool) (dr : ExtResult),
        st.last_obs_scene = some x →
        onObsSceneChanged config st (some x) ms f dr = (st, [])) ∧
    (∀ (config : Config) (st : SyncState) (x tgt : String)
        (ms ms2 : Except Unit FieldsetState) (f f2 : Bool) (dr dr2 : ExtResult),
        config.sync_obs_to_tm = true → x ≠ "" → st.last_obs_scene ≠ some x →
        x ∉ field_scenes config → obs_to_tm config x = some tgt →
        dr ≠ ExtResult.nameError →
        onObsSceneChanged config (onObsSceneChanged config st (some x) ms f dr).1
            (some x) ms2 f2 dr2 =
          ((onObsSceneChanged config st (some x) ms f dr).1, []) ∧
        ((onObsSceneChanged config st (some x) ms f dr).2 ++
          (onObsSceneChanged config (onObsSceneChanged config st (some x) ms f dr).1
            (some x) ms2 f2 dr2).2).length = 1) := by
  constructor
  · intro config st x ms f dr h
    exact obsHandler_loopBreak config st x ms f dr h
  · intro config st x tgt ms ms2 f f2 dr dr2 hsync hx hnew hfield hmap hdr
    have h1 := obsHandler_direct config st x tgt ms f dr hsync hx hnew hfield hmap
    have hlast : (onObsSceneChanged config st (some x) ms f dr).1.last_obs_scene = some x := by
      rw [h1]; cases dr <;> rfl
    have h2 := obsHandler_loopBreak config _ x ms2 f2 dr2 hlast
    refine ⟨h2, ?_⟩
    rw [h2, h1]
    cases dr with
    | nameError => exact absurd rfl hdr
    | cmdError => rfl
    | ok => rfl

/-- Witness for C2 at a concrete input: a repeated event is a no-op, and
two identical events in a row issue exactly one command. -/
theorem C2_idempotent_events_witness :
    onObsSceneChanged demoConfig
        { last_obs_scene := some "Scene Logo", last_tm_display := some "Logo" }
        (some "Scene Logo") (Except.ok FieldsetState.Disabled) true ExtResult.ok =
      ({ last_obs_scene := some "Scene Logo", last_tm_display := some "Logo" }, []) ∧
    (onObsSceneChanged demoConfig
        (onObsSceneChanged demoConfig demoState (some "Scene Logo")
          (Except.ok FieldsetState.Disabled) true ExtResult.ok).1
        (some "Scene Logo") (Except.ok FieldsetState.Disabled) true ExtResult.ok =
      ((onObsSceneChanged demoConfig demoState (some "Scene Logo")
          (Except.ok FieldsetState.Disabled) true ExtResult.ok).1, []) ∧
    ((onObsSceneChanged demoConfig demoState (some "Scene Logo")
        (Except.ok FieldsetState.Disabled) true ExtResult.ok).2 ++
      (onObsSceneChanged demoConfig
        (onObsSceneChanged demoConfig demoState (some "Scene Logo")
          (Except.ok FieldsetState.Disabled) true ExtResult.ok).1
        (some "Scene Logo") (Except.ok FieldsetState.Disabled) true ExtResult.ok).2).length = 1) :=
  ⟨C2_idempotent_events.1 demoConfig
      { last_obs_scene := some "Scene Logo", last_tm_display := some "Logo" }
      "Scene Logo" (Except.ok FieldsetState.Disabled) true ExtResult.ok rfl,
   C2_idempotent_events.2 demoConfig demoState "Scene Logo" "Logo"
      (Except.ok FieldsetState.Disabled) (Except.ok FieldsetState.Disabled)
      true true ExtResult.ok ExtResult.ok
      rfl (by decide) (by decide) (by decide) (by decide) (by decide)⟩

/-- C5: Positional A-to-B resolution.  A fresh event on a positional
(field) scene resolves against the freshly fetched match state: `Intro`
when the state is `Disabled`, `InMatch` otherwise (running or paused);
on success the resolved target is recorded. -/
theorem C5_positional_resolution (config : Config) (st : SyncState) (x : String)
    (ms : FieldsetState) (f : Bool) (dr : ExtResult)
    (hsync : config.sync_obs_to_tm = true) (hx : x ≠ "")
    (hnew : st.last_obs_scene ≠ some x) (hfield : x ∈ field_scenes config) :
    ((ms = FieldsetState.Disabled →
        (onObsSceneChanged config st (some x) (Except.ok ms) f dr).2 =
          [Cmd.setAudienceDisplay introName]) ∧
      (ms ≠ FieldsetState.Disabled →
        (onObsSceneChanged config st (some x) (Except.ok ms) f dr).2 =
          [Cmd.setAudienceDisplay inMatchName])) ∧
    (f = true →
      (onObsSceneChanged config st (some x) (Except.ok ms) f dr).1.last_tm_display =
        some (if ms = FieldsetState.Disabled then introName else inMatchName)) := by
  have h := obsHandler_field config st x ms f dr hsync hx hnew hfield
  rw [h]
  by_cases hms : ms = FieldsetState.Disabled <;> cases f <;> simp [hms]

/-- Witness for C5 at a concrete input: a running match resolves a field
scene to the InMatch display. -/
theorem C5_positional_resolution_witness :
    ((FieldsetState.Running = FieldsetState.Disabled →
        (onObsSceneChanged demoConfig
          { last_obs_scene := some "Scene Logo", last_tm_display := some "Blank" }
          (some "Field 2") (Except.ok FieldsetState.Running) true ExtResult.ok).2 =
          [Cmd.setAudienceDisplay introName]) ∧
      (FieldsetState.Running ≠ FieldsetState.Disabled →
        (onObsSceneChanged demoConfig
          { last_obs_scene := some "Scene Logo", last_tm_display := some "Blank" }
          (some "Field 2") (Except.ok FieldsetState.Running) true ExtResult.ok).2 =
          [Cmd.setAudienceDisplay inMatchName])) ∧
    (true = true →
      (onObsSceneChanged demoConfig
          { last_obs_scene := some "Scene Logo", last_tm_display := some "Blank" }
          (some "Field 2") (Except.ok FieldsetState.Running) true ExtResult.ok).1.last_tm_display =
        some (if FieldsetState.Running = FieldsetState.Disabled then introName else inMatchName)) :=
  C5_positional_resolution demoConfig
    { last_obs_scene := some "Scene Logo", last_tm_display := some "Blank" }
    "Field 2" FieldsetState.Running true ExtResult.ok
    rfl (by decide) (by decide) (by decide)

/-- C6: Positional reverse resolution.  A fresh positional overview event
with an in-range position index issues exactly one `setCurrentScene` for
the scene at that index; with an out-of-range or missing index it issues
no command, does not crash, and leaves the side-A state untouched (only
the observed display is recorded). -/
theorem C6_positional_reverse_resolution (config : Config) (st : SyncState)
    (name : String) (i : Int) (sOk : Bool)
    (hsync : config.sync_tm_to_obs = true)
    (hname : name ∈ [introName, inMatchName])
    (hnew : st.last_tm_display ≠ some name) :
    (0 ≤ i ∧ i < ((field_scenes config).length : Int) →
      (onTmOverviewUpdated config st
        { audience_display_name := name, current_field_id := some i } sOk).2 =
        [Cmd.setCurrentProgramScene ((field_scenes config).getD i.toNat "")]) ∧
    (¬(0 ≤ i ∧ i < ((field_scenes config).length : Int)) →
      onTmOverviewUpdated config st
        { audience_display_name := name, current_field_id := some i } sOk =
        ({ st with last_tm_display := some name }, [])) ∧
    (onTmOverviewUpdated config st
        { audience_display_name := name, current_field_id := none } sOk =
        ({ st with last_tm_display := some name }, [])) := by
  unfold onTmOverviewUpdated
  refine ⟨fun hrange => ?_, fun hrange => ?_, ?_⟩
  · cases sOk <;> simp [hsync, hnew, hname, hrange]
  · simp [hsync, hnew, hname, hrange]
  · simp [hsync, hnew, hname]

/-- Witness for C6 at concrete inputs: index 1 of the two-element field
list issues `setCurrentScene "Field 2"`; index 5 is rejected without a
command or a side-A mutation. -/
theorem C6_positional_reverse_resolution_witness :
    ((0 ≤ (1 : Int) ∧ (1 : Int) < ((field_scenes demoConfig).length : Int) →
      (onTmOverviewUpdated demoConfig demoState
        { audience_display_name := "InMatch", current_field_id := some 1 } true).2 =
        [Cmd.setCurrentProgramScene ((field_scenes demoConfig).getD (1 : Int).toNat "")]) ∧
    (¬(0 ≤ (1 : Int) ∧ (1 : Int) < ((field_scenes demoConfig).length : Int)) →
      onTmOverviewUpdated demoConfig demoState
        { audience_display_name := "InMatch", current_field_id := some 1 } true =
        ({ demoState with last_tm_display := some "InMatch" }, [])) ∧
    (onTmOverviewUpdated demoConfig demoState
        { audience_display_name := "InMatch", current_field_id := none } true =
        ({ demoState with last_tm_display := some "InMatch" }, []))) ∧
    (¬(0 ≤ (5 : Int) ∧ (5 : Int) < ((field_scenes demoConfig).length : Int)) →
      onTmOverviewUpdated demoConfig demoState
        { audience_display_name := "InMatch", current_field_id := some 5 } true =
        ({ demoState with last_tm_display := some "InMatch" }, [])) :=
  ⟨C6_positional_reverse_resolution demoConfig demoState "InMatch" 1 true
      rfl (by decide) (by decide),
   (C6_positional_reverse_resolution demoConfig demoState "InMatch" 5 true
      rfl (by decide) (by decide)).2.1⟩

/-- C8: Unmapped input.  A scene that is neither positional nor directly
mapped never causes a command and never changes the last known display
state. -/
theorem C8_unmapped_input (config : Config) (st : SyncState) (s : String)
    (ms : Except Unit FieldsetState) (f : Bool) (dr : ExtResult)
    (hfield : s ∉ field_scenes config) (hmap : obs_to_tm config s = none) :
    (onObsSceneChanged config st (some s) ms f dr).2 = [] ∧
    (onObsSceneChanged config st (some s) ms f dr).1.last_tm_display = st.last_tm_display := by
  unfold onObsSceneChanged
  by_cases hs : config.sync_obs_to_tm = false <;>
    by_cases hx : s = "" <;>
      by_cases hlast : st.last_obs_scene = some s <;>
        simp [hs, hx, hlast, hfield, hmap]

/-- Witness for C8 at a concrete input. -/
theorem C8_unmapped_input_witness :
    (onObsSceneChanged demoConfig demoState (some "UnknownScene")
        (Except.ok FieldsetState.Disabled) true ExtResult.ok).2 = [] ∧
    (onObsSceneChanged demoConfig demoState (some "UnknownScene")
        (Except.ok FieldsetState.Disabled) true ExtResult.ok).1.last_tm_display =
      demoState.last_tm_display :=
  C8_unmapped_input demoConfig demoState "UnknownScene"
    (Except.ok FieldsetState.Disabled) true ExtResult.ok (by decide) (by decide)

/-- C9: Directionality toggles.  With sync-A-to-B disabled the OBS
handler returns immediately, issuing nothing and mutating nothing;
symmetrically for the TM handler with sync-B-to-A disabled. -/
theorem C9_directionality_toggle :
    (∀ (config : Config) (st : SyncState) (e : Option String)
        (ms : Except Unit FieldsetState) (f : Bool) (dr : ExtResult),
        config.sync_obs_to_tm = false →
        onObsSceneChanged config st e ms f dr = (st, [])) ∧
    (∀ (config : Config) (st : SyncState) (overview : Overview) (sOk : Bool),
        config.sync_tm_to_obs = false →
        onTmOverviewUpdated config st overview sOk = (st, [])) := by
  constructor
  · intro config st e ms f dr h
    unfold onObsSceneChanged
    simp [h]
  · intro config st overview sOk h
    unfold onTmOverviewUpdated
    simp [h]

/-- Witness for C9 at concrete inputs, with each direction disabled in
turn. -/
theorem C9_directionality_toggle_witness :
    onObsSceneChanged { demoConfig with sync_obs_to_tm := false } demoState
        (some "Scene Logo") (Except.ok FieldsetState.Disabled) true ExtResult.ok =
      (demoState, []) ∧
    onTmOverviewUpdated { demoConfig with sync_tm_to_obs := false } demoState
        { audience_display_name := "InMatch", current_field_id := some 0 } true =
      (demoState, []) :=
  ⟨C9_directionality_toggle.1 { demoConfig with sync_obs_to_tm := false } demoState
      (some "Scene Logo") (Except.ok FieldsetState.Disabled) true ExtResult.ok rfl,
   C9_directionality_toggle.2 { demoConfig with sync_tm_to_obs := false } demoState
      { audience_display_name := "InMatch", current_field_id := some 0 } true rfl⟩

/-- C3 counterexample: in the steady-state handler the resolved target
("Logo") already equals the last known display state, yet the command is
still issued — `_on_obs_scene_changed` has no redundant-target guard
(that guard exists only in the initial-sync pass of `run`), so the claim
"if the resolved target equals lastKnownDisplayStateId, no command is
issued to side B" is false on the code. -/
theorem C3_redundant_guard_counterexample :
    obs_to_tm demoConfig "Scene Logo" = some "Logo" ∧
    ({ last_obs_scene := some "Field 1", last_tm_display := some "Logo" } :
        SyncState).last_tm_display = some "Logo" ∧
    (onObsSceneChanged demoConfig
        { last_obs_scene := some "Field 1", last_tm_display := some "Logo" }
        (some "Scene Logo") (Except.ok FieldsetState.Disabled) true ExtResult.ok).2 =
      [Cmd.setAudienceDisplay "Logo"] := by
  decide

/-- C3 (amended): in `onSideAChanged`, whenever a target display state is
resolved (and the external call is actually attempted), the command to
side B is issued unconditionally, whether or not the resolved target
equals `lastKnownDisplayStateId`; the target-differs guard exists only in
the initial-sync pass. -/
theorem C3_unconditional_issue (config : Config) (st : SyncState) (x tgt : String)
    (ms : FieldsetState) (f : Bool) (dr : ExtResult)
    (hsync : config.sync_obs_to_tm = true) (hx : x ≠ "")
    (hnew : st.last_obs_scene ≠ some x) :
    (x ∉ field_scenes config → obs_to_tm config x = some tgt →
      dr ≠ ExtResult.nameError →
      (onObsSceneChanged config st (some x) (Except.ok ms) f dr).2 =
        [Cmd.setAudienceDisplay tgt]) ∧
    (x ∈ field_scenes config →
      (onObsSceneChanged config st (some x) (Except.ok ms) f dr).2 =
        [Cmd.setAudienceDisplay
          (if ms = FieldsetState.Disabled then introName else inMatchName)]) := by
  constructor
  · intro hfield hmap hdr
    rw [obsHandler_direct config st x tgt (Except.ok ms) f dr hsync hx hnew hfield hmap]
    cases dr with
    | nameError => exact absurd rfl hdr
    | cmdError => rfl
    | ok => rfl
  · intro hfield
    rw [obsHandler_field config st x ms f dr hsync hx hnew hfield]
    cases f <;> rfl

/-- Witness for the amended C3: the target equals the last known display
state, and the command is issued nevertheless. -/
theorem C3_unconditional_issue_witness :
    (onObsSceneChanged demoConfig
        { last_obs_scene := some "Field 1", last_tm_display := some "Logo" }
        (some "Scene Logo") (Except.ok FieldsetState.Disabled) true ExtResult.ok).2 =
      [Cmd.setAudienceDisplay "Logo"] :=
  (C3_unconditional_issue demoConfig
      { last_obs_scene := some "Field 1", last_tm_display := some "Logo" }
      "Scene Logo" "Logo" FieldsetState.Disabled true ExtResult.ok
      rfl (by decide) (by decide)).1 (by decide) (by decide) (by decide)

/-- C4 counterexample: the first event's command fails; the display
tracker keeps its pre-event value, but the scene tracker was already
advanced before the command, so the identical follow-up event — whose
command would now succeed — is suppressed by the loop-break and issues
nothing.  This falsifies "a subsequent identical event onSideAChanged(x)
is still evaluated rather than permanently suppressed". -/
theorem C4_failure_retry_counterexample :
    onObsSceneChanged demoConfig demoState (some "Scene Logo")
        (Except.ok FieldsetState.Disabled) true ExtResult.cmdError =
      ({ last_obs_scene := some "Scene Logo", last_tm_display := some "Blank" },
        [Cmd.setAudienceDisplay "Logo"]) ∧
    onObsSceneChanged demoConfig
        { last_obs_scene := some "Scene Logo", last_tm_display := some "Blank" }
        (some "Scene Logo") (Except.ok FieldsetState.Disabled) true ExtResult.ok =
      ({ last_obs_scene := some "Scene Logo", last_tm_display := some "Blank" }, []) := by
  decide

/-- C4 (amended): when the resolved command fails, the command was
attempted, `lastKnownDisplayStateId` keeps its pre-event value and the
failure is absorbed (the handler returns normally); but
`lastKnownSceneId` has already been advanced to `x`, so a subsequent
identical event is suppressed by the loop-break rather than re-evaluated
(only an event for a different scene is evaluated again). -/
theorem C4_failure_isolation (config : Config) (st : SyncState) (x tgt : String)
    (ms ms2 : Except Unit FieldsetState) (f f2 : Bool) (dr2 : ExtResult)
    (hsync : config.sync_obs_to_tm = true) (hx : x ≠ "")
    (hnew : st.last_obs_scene ≠ some x)
    (hfield : x ∉ field_scenes config) (hmap : obs_to_tm config x = some tgt) :
    (onObsSceneChanged config st (some x) ms f ExtResult.cmdError).2 =
      [Cmd.setAudienceDisplay tgt] ∧
    (onObsSceneChanged config st (some x) ms f ExtResult.cmdError).1.last_tm_display =
      st.last_tm_display ∧
    (onObsSceneChanged config st (some x) ms f ExtResult.cmdError).1.last_obs_scene =
      some x ∧
    onObsSceneChanged config
        (onObsSceneChanged config st (some x) ms f ExtResult.cmdError).1
        (some x) ms2 f2 dr2 =
      ((onObsSceneChanged config st (some x) ms f ExtResult.cmdError).1, []) := by
  have h1 := obsHandler_direct config st x tgt ms f ExtResult.cmdError hsync hx hnew hfield hmap
  rw [h1]
  exact ⟨rfl, rfl, rfl, obsHandler_loopBreak config _ x ms2 f2 dr2 rfl⟩

/-- Witness for the amended C4 at a concrete input. -/
theorem C4_failure_isolation_witness :
    (onObsSceneChanged demoConfig demoState (some "Scene Logo")
        (Except.ok FieldsetState.Disabled) true ExtResult.cmdError).2 =
      [Cmd.setAudienceDisplay "Logo"] ∧
    (onObsSceneChanged demoConfig demoState (some "Scene Logo")
        (Except.ok FieldsetState.Disabled) true ExtResult.cmdError).1.last_tm_display =
      demoState.last_tm_display ∧
    (onObsSceneChanged demoConfig demoState (some "Scene Logo")
        (Except.ok FieldsetState.Disabled) true ExtResult.cmdError).1.last_obs_scene =
      some "Scene Logo" ∧
    onObsSceneChanged demoConfig
        (onObsSceneChanged demoConfig demoState (some "Scene Logo")
          (Except.ok FieldsetState.Disabled) true ExtResult.cmdError).1
        (some "Scene Logo") (Except.ok FieldsetState.Disabled) true ExtResult.ok =
      ((onObsSceneChanged demoConfig demoState (some "Scene Logo")
          (Except.ok FieldsetState.Disabled) true ExtResult.cmdError).1, []) :=
  C4_failure_isolation demoConfig demoState "Scene Logo" "Logo"
    (Except.ok FieldsetState.Disabled) (Except.ok FieldsetState.Disabled)
    true true ExtResult.ok
    rfl (by decide) (by decide) (by decide) (by decide)

/-- C7 counterexample: with the captured OBS scene directly mapped to the
display TM already shows, the initial-sync pass issues nothing (it guards
on target ≠ last known display), while the steady-state handler
evaluating the same scene against the same last known display issues one
command (it has no such guard): the two paths do not share the same
command-issuance conditions, falsifying that part of the claim. -/
theorem C7_initial_sync_counterexample :
    obs_to_tm demoConfig "Scene Logo" = some "Logo" ∧
    (initialSync demoConfig
        { last_obs_scene := some "Scene Logo", last_tm_display := some "Logo" }
        (Except.ok FieldsetState.Disabled) true ExtResult.ok (Except.ok none) true).2 = [] ∧
    (onObsSceneChanged demoConfig
        { last_obs_scene := some "Field 1", last_tm_display := some "Logo" }
        (some "Scene Logo") (Except.ok FieldsetState.Disabled) true ExtResult.ok).2 =
      [Cmd.setAudienceDisplay "Logo"] := by
  decide

/-- C7 (amended): the start-up pass runs at most one direction and the
A→B direction takes priority when it is enabled and a scene was captured;
in that case side B's state is never independently pushed (every issued
command targets side B), and the pass uses the same mapping lookup as the
steady-state handler — but it issues the command only when the resolved
target differs from the last known display state, a guard the
steady-state handler does not apply. -/
theorem C7_initial_sync_amended (config : Config) (st : SyncState) (s tgt : String)
    (ms : Except Unit FieldsetState) (f : Bool) (dr : ExtResult)
    (ovf : Except Unit (Option Int)) (sOk : Bool)
    (hsync : config.sync_obs_to_tm = true)
    (hscene : st.last_obs_scene = some s) (hs : s ≠ "")
    (hfield : s ∉ field_scenes config) (hmap : obs_to_tm config s = some tgt)
    (hdr : dr ≠ ExtResult.nameError) :
    (initialSync config st ms f dr ovf sOk).2 =
      (if some tgt ≠ st.last_tm_display then [Cmd.setAudienceDisplay tgt] else []) ∧
    (∀ c ∈ (initialSync config st ms f dr ovf sOk).2,
      ∃ n, c = Cmd.setAudienceDisplay n) := by
  unfold initialSync initialSyncObsToTm
  cases dr with
  | nameError => exact absurd rfl hdr
  | cmdError =>
    by_cases heq : some tgt = st.last_tm_display
    · simp [hsync, hscene, optTruthy, hs, hfield, hmap, ← heq]
    · simp [hsync, hscene, optTruthy, hs, hfield, hmap, heq]
  | ok =>
    by_cases heq : some tgt = st.last_tm_display
    · simp [hsync, hscene, optTruthy, hs, hfield, hmap, ← heq]
    · simp [hsync, hscene, optTruthy, hs, hfield, hmap, heq]

/-- Witness for the amended C7 at a concrete input where the target
differs from the last known display, so the pass issues one command. -/
theorem C7_initial_sync_amended_witness :
    (initialSync demoConfig
        { last_obs_scene := some "Scene Logo", last_tm_display := some "Blank" }
        (Except.ok FieldsetState.Disabled) true ExtResult.ok (Except.ok none) true).2 =
      (if some "Logo" ≠ ({
          last_obs_scene := some "Scene Logo",
          last_tm_display := some "Blank" } : SyncState).last_tm_display then
        [Cmd.setAudienceDisplay "Logo"] else []) ∧
    (∀ c ∈ (initialSync demoConfig
        { last_obs_scene := some "Scene Logo", last_tm_display := some "Blank" }
        (Except.ok FieldsetState.Disabled) true ExtResult.ok (Except.ok none) true).2,
      ∃ n, c = Cmd.setAudienceDisplay n) :=
  C7_initial_sync_amended demoConfig
    { last_obs_scene := some "Scene Logo", last_tm_display := some "Blank" }
    "Scene Logo" "Logo" (Except.ok FieldsetState.Disabled) true ExtResult.ok
    (Except.ok none) true
    rfl rfl (by decide) (by decide) (by decide) (by decide)

/-- A configuration with both sync directions disabled. -/
def bothDisabledConfig : Config :=
  { demoConfig with sync_tm_to_obs := false, sync_obs_to_tm := false }

/-- C10: `validate_config` rejects every configuration in which both sync
directions are disabled, so a configuration that passes validation always
has at least one direction enabled. -/
theorem C10_sync_direction_required :
    (∀ (valid_displays : List String) (config : Config),
        config.sync_tm_to_obs = false → config.sync_obs_to_tm = false →
        ∃ msg, validate_config valid_displays config = Except.error msg) ∧
    (∀ (valid_displays : List String) (config : Config),
        validate_config valid_displays config = Except.ok () →
        config.sync_tm_to_obs = true ∨ config.sync_obs_to_tm = true) := by
  have hrej : ∀ (valid_displays : List String) (config : Config),
      config.sync_tm_to_obs = false → config.sync_obs_to_tm = false →
      ∃ msg, validate_config valid_displays config = Except.error msg := by
    intro vd config h1 h2
    unfold validate_config
    repeat' split
    all_goals first
      | exact ⟨_, rfl⟩
      | simp_all
  refine ⟨hrej, ?_⟩
  intro vd config hok
  by_contra hcon
  rw [not_or] at hcon
  obtain ⟨hA, hB⟩ := hcon
  obtain ⟨msg, herr⟩ :=
    hrej vd config (Bool.not_eq_true _ ▸ hA) (Bool.not_eq_true _ ▸ hB)
  rw [herr] at hok
  exact Except.noConfusion hok

/-- Witness for C10: the demo configuration with both directions disabled
is rejected, and the demo configuration itself validates with at least
one direction enabled. -/
theorem C10_sync_direction_required_witness :
    (∃ msg, validate_config ["Logo"] bothDisabledConfig = Except.error msg) ∧
    (demoConfig.sync_tm_to_obs = true ∨ demoConfig.sync_obs_to_tm = true) :=
  ⟨C10_sync_direction_required.1 ["Logo"] bothDisabledConfig rfl rfl,
   C10_sync_direction_required.2 ["Logo"] demoConfig rfl⟩

end VexTmObsSync
